import Mathlib

/-
Verification of the regex-query component of the tantivy search engine
(src/src/query/regex_query.rs) against its specification.

The source file under verification contains the `RegexQuery` facade:
`RegexQuery::new`, `RegexQuery::specialized_weight` and the `Query` impl's
`weight`.  The collaborators it uses (`fst_regex::Regex`, `AutomatonWeight`,
the per-segment term dictionary and posting lists, `Searcher`) live in parts
of the repository that are not available here; those are modelled from the
specification, each with a doc comment starting `Modelled from the spec:`.
-/

namespace Tantivy

/-- From the source (`schema::Field`): a field identifier, a dense integer
wrapped in a one-field struct. -/
structure Field where
  id : Nat
deriving DecidableEq, Repr

/-- From the source (`error::TantivyError`): the error variant the regex query
uses is `InvalidArgument`, carrying the offending pattern text.
`ConfigurationError` is modelled from the spec: the distinct error kind
reported when the bound field is missing from a segment's schema or not
indexed as text. -/
inductive TantivyError where
  | InvalidArgument (msg : String)
  | ConfigurationError (msg : String)
deriving DecidableEq, Repr

/-- Modelled from the spec: a character class of the pattern language — a
union of inclusive character ranges; a single literal character is the
degenerate range from itself to itself. -/
abbrev CharClass := List (Char × Char)

/-- Modelled from the spec: membership of a character in a character class. -/
def charClassMem (cc : CharClass) (c : Char) : Bool :=
  cc.any fun r => r.1.toNat ≤ c.toNat && c.toNat ≤ r.2.toNat

/-- Modelled from the spec: the pattern scanner of the Automaton Compiler for
the pattern fragment exercised by this query family — literal characters and
bracketed character classes with ranges (`jap[ao]n`, `jap[A-Z]n`).  Returns
`none` on a malformed pattern (an unbalanced character class), `some` with the
sequence of character classes otherwise.  `inClass` records whether the scan
is inside `[...]`, `cur` accumulates the open class, `acc` the classes read
so far. -/
def scanPattern : List Char → Bool → CharClass → List CharClass →
    Option (List CharClass)
  | [], false, _, acc => some acc.reverse
  | [], true, _, _ => none
  | '[' :: rest, false, _, acc => scanPattern rest true [] acc
  | ']' :: rest, true, cur, acc => scanPattern rest false [] (cur.reverse :: acc)
  | a :: '-' :: b :: rest, true, cur, acc =>
    if b = ']' then
      scanPattern rest false [] ((('-', '-') :: (a, a) :: cur).reverse :: acc)
    else
      scanPattern rest true ((a, b) :: cur) acc
  | c :: rest, true, cur, acc => scanPattern rest true ((c, c) :: cur) acc
  | c :: rest, false, cur, acc => scanPattern rest false cur ([(c, c)] :: acc)

/-- Modelled from the spec: the compiled Acceptor (`fst_regex::Regex`) — a
deterministic finite-state machine over character-valued transitions.  For the
linear pattern fragment above, the states are `0 .. classes.length`, the start
state is `0`, state `i` steps to `i + 1` exactly on the characters of the
`i`-th class (determinism: at most one successor per state and character), and
the sole accepting state is `classes.length`. -/
structure Regex where
  classes : List CharClass
deriving DecidableEq, Repr

/-- Modelled from the spec: the acceptor's designated start state. -/
def Regex.start (_r : Regex) : Nat := 0

/-- Modelled from the spec: whether a state of the acceptor is accepting. -/
def Regex.accepting (r : Regex) (s : Nat) : Bool := s == r.classes.length

/-- Modelled from the spec: the acceptor's partial transition function
(state × character → state). -/
def Regex.step (r : Regex) (s : Nat) (c : Char) : Option Nat :=
  match r.classes.get? s with
  | some cc => if charClassMem cc c then some (s + 1) else none
  | none => none

/-- Modelled from the spec: run the acceptor from a state over a word. -/
def Regex.run (r : Regex) (s : Nat) (w : List Char) : Option Nat :=
  w.foldl (fun os c => os.bind fun st => r.step st c) (some s)

/-- Modelled from the spec: the language of the acceptor — a word is accepted
when running it from the start state ends in an accepting state. -/
def Regex.accepts (r : Regex) (w : List Char) : Bool :=
  match r.run r.start w with
  | some s => r.accepting s
  | none => false

/-- Modelled from the spec: `fst_regex::Regex::new` — compiles a pattern
string into a deterministic acceptor, or fails (yielding `none`, the
`InvalidPattern` condition) when the pattern is malformed, e.g. an unbalanced
character class. -/
def Regex.new (pattern : String) : Option Regex :=
  (scanPattern pattern.toList false [] []).map Regex.mk

/-- From the source: `pub struct RegexQuery { regex_pattern: String,
field: Field }`. -/
structure RegexQuery where
  regex_pattern : String
  field : Field
deriving DecidableEq, Repr

/-- From the source: `RegexQuery::new(regex_pattern, field)` — builds the
query record from its two arguments, unconditionally. -/
def RegexQuery.new (regex_pattern : String) (field : Field) : RegexQuery :=
  { regex_pattern, field }

/-- From the source usage `AutomatonWeight::new(self.field, automaton)`: the
weight pairs the bound field with the compiled automaton. -/
structure AutomatonWeight where
  field : Field
  automaton : Regex
deriving DecidableEq, Repr

/-- From the source: `RegexQuery::specialized_weight` — compiles
`self.regex_pattern`; on failure maps the error to
`TantivyError::InvalidArgument(self.regex_pattern.clone())`, on success
returns `AutomatonWeight::new(self.field, automaton)`. -/
def RegexQuery.specialized_weight (q : RegexQuery) :
    Except TantivyError AutomatonWeight :=
  match Regex.new q.regex_pattern with
  | none => .error (.InvalidArgument q.regex_pattern)
  | some automaton => .ok ⟨q.field, automaton⟩

/-- Modelled from the spec: a segment — an immutable partition of the index —
exposes which fields its schema indexes as text, and its sorted term
dictionary, mapping each term (character sequence) to the ascending posting
list of identifiers of the documents containing it. -/
structure Segment where
  schemaTextFields : List Field
  terms : List (List Char × List Nat)
deriving DecidableEq, Repr

/-- Modelled from the spec: a searcher holds the collection of searched
segments. -/
structure Searcher where
  segments : List Segment
deriving DecidableEq, Repr

/-- From the source: `impl Query for RegexQuery { fn weight(&self, _searcher:
&Searcher, _scoring_enabled: bool) }` — both arguments are ignored and the
result is exactly `specialized_weight`. -/
def RegexQuery.weight (q : RegexQuery) (_searcher : Searcher)
    (_scoring_enabled : Bool) : Except TantivyError AutomatonWeight :=
  q.specialized_weight

/-- Modelled from the spec: the Co-Traversal Matcher emits exactly the
dictionary terms that the acceptor accepts (set-equivalent to brute-force
filtering of the dictionary, in dictionary order), paired here with their
posting lists. -/
def matchedTerms (r : Regex) (seg : Segment) : List (List Char × List Nat) :=
  seg.terms.filter fun t => r.accepts t.1

/-- Modelled from the spec: insertion of one document identifier into an
ascending, duplicate-free stream, keeping it ascending and duplicate-free. -/
def insertAsc (x : Nat) : List Nat → List Nat
  | [] => [x]
  | y :: ys =>
    if x < y then x :: y :: ys
    else if x = y then y :: ys
    else y :: insertAsc x ys

/-- Modelled from the spec: ascending merge of two ascending posting lists,
deduplicating document identifiers present in both. -/
def mergeAsc : List Nat → List Nat → List Nat
  | [], ys => ys
  | x :: xs, ys => insertAsc x (mergeAsc xs ys)

/-- Modelled from the spec: the Posting Aggregator's k-way ascending,
deduplicating merge of the matched terms' posting lists. -/
def mergePostings (ls : List (List Nat)) : List Nat := ls.foldr mergeAsc []

/-- Modelled from the spec: the constant per-document match weight (the 1.0
score of this query family; no term-frequency or positional scoring). -/
def uniformWeight : Nat := 1

/-- Modelled from the spec: the scored-document stream of one segment — the
merged document identifiers, each paired with the uniform match weight. -/
def scoredStream (r : Regex) (seg : Segment) : List (Nat × Nat) :=
  (mergePostings ((matchedTerms r seg).map fun t => t.2)).map
    fun d => (d, uniformWeight)

/-- Modelled from the spec: per-segment evaluation
`evaluate(segment) -> ScoredDocumentCursor | ConfigurationError` — checks the
bound field against the segment's schema (a missing or non-text field is a
configuration error, distinct from pattern failure), then runs the matcher
and the aggregator. -/
def AutomatonWeight.evaluate (w : AutomatonWeight) (seg : Segment) :
    Except TantivyError (List (Nat × Nat)) :=
  if w.field ∈ seg.schemaTextFields then .ok (scoredStream w.automaton seg)
  else .error (.ConfigurationError "field not indexed as text")

/-- Modelled from the spec: a whole search — obtain the query's weight once
(compiling the pattern before any segment is touched), then evaluate it
against every segment of the searcher. -/
def search (q : RegexQuery) (s : Searcher) :
    Except TantivyError (List (List (Nat × Nat))) := do
  let w ← q.weight s true
  s.segments.mapM fun seg => w.evaluate seg

/-- From the source's borrow discipline (`fn weight(&self, ...)` on an
immutable borrow, no interior mutability): the state-passing embedding of
`weight` returns the receiver alongside the result. -/
def RegexQuery.weightS (q : RegexQuery) (s : Searcher) (b : Bool) :
    Except TantivyError AutomatonWeight × RegexQuery :=
  (q.weight s b, q)

/-- From the source's borrow discipline (`fn specialized_weight(&self)`): the
state-passing embedding of `specialized_weight`. -/
def RegexQuery.specializedWeightS (q : RegexQuery) :
    Except TantivyError AutomatonWeight × RegexQuery :=
  (q.specialized_weight, q)

/-- From the source's borrow discipline (`searcher.search(&query, ...)` takes
the query by immutable borrow): the state-passing embedding of a whole search,
evaluating the query on every segment of the searcher. -/
def RegexQuery.searchS (q : RegexQuery) (s : Searcher) :
    Except TantivyError (List (List (Nat × Nat))) × RegexQuery :=
  (search q s, q)

/-- The field `country` of the test scenario (the first field added to the
schema). -/
def countryField : Field := ⟨0⟩

/-- The two-document segment of `test_regex_query`: term "japan" in document
0, term "korea" in document 1, field `country` indexed as text. -/
def japanKoreaSegment : Segment :=
  { schemaTextFields := [countryField]
    terms := [("japan".toList, [0]), ("korea".toList, [1])] }

/-- The searcher over the single two-document segment. -/
def japanKoreaSearcher : Searcher := ⟨[japanKoreaSegment]⟩

/-- The acceptor the pattern "jap[ao]n" compiles to. -/
def japAonRegex : Regex :=
  ⟨[[('j', 'j')], [('a', 'a')], [('p', 'p')], [('a', 'a'), ('o', 'o')],
    [('n', 'n')]]⟩

/-- The acceptor the pattern "jap[A-Z]n" compiles to. -/
def japAZnRegex : Regex :=
  ⟨[[('j', 'j')], [('a', 'a')], [('p', 'p')], [('A', 'Z')], [('n', 'n')]]⟩

/-- Claim C1, counterexample: the pattern "jap[" cannot be compiled, yet
`RegexQuery::new` still returns a constructed query from it, and the failure
surfaces only later, when the query's weight is computed — contradicting the
claim that an uncompilable pattern is detected at construction time and never
yields a constructed query. -/
theorem C1_counterexample :
    Regex.new "jap[" = none ∧
    RegexQuery.new "jap[" countryField =
      { regex_pattern := "jap[", field := countryField } ∧
    (RegexQuery.new "jap[" countryField).weight japanKoreaSearcher true =
      .error (.InvalidArgument "jap[") :=
  ⟨rfl, rfl, rfl⟩

/-- Claim C1 (amended): query construction always returns a query; a pattern
that cannot be compiled is instead detected when the query's weight is
requested — still before any segment is touched — and always surfaces to the
caller as an `InvalidArgument` error carrying the offending pattern text,
never silently recovered. -/
theorem C1_invalid_pattern_detected_at_weight (p : String) (f : Field)
    (s : Searcher) (b : Bool) (h : Regex.new p = none) :
    (RegexQuery.new p f).weight s b = .error (.InvalidArgument p) := by
  simp [RegexQuery.weight, RegexQuery.specialized_weight, RegexQuery.new, h]

/-- Claim C1, witness: the amended statement at the concrete uncompilable
pattern "jap[". -/
theorem C1_witness :
    (RegexQuery.new "jap[" ⟨0⟩).weight japanKoreaSearcher false =
      .error (.InvalidArgument "jap[") :=
  C1_invalid_pattern_detected_at_weight "jap[" ⟨0⟩ japanKoreaSearcher false rfl

/-- Claim C2: on the two-document segment with term "japan" in document 0 and
term "korea" in document 1, searching with pattern "jap[ao]n" yields exactly
the scored-document stream [(0, uniform weight)], and searching with pattern
"jap[A-Z]n" yields the empty stream. -/
theorem C2_japan_korea_scenario :
    search (RegexQuery.new "jap[ao]n" countryField) japanKoreaSearcher =
      .ok [[(0, uniformWeight)]] ∧
    search (RegexQuery.new "jap[A-Z]n" countryField) japanKoreaSearcher =
      .ok [[]] :=
  ⟨rfl, rfl⟩

/-- Claim C3: `specialized_weight` fails exactly when the stored pattern
cannot be compiled — when compilation succeeds it returns the weight built
from the bound field and the compiled automaton, and when compilation fails
it returns an `InvalidArgument` error carrying the offending pattern text. -/
theorem C3_specialized_weight_fails_iff_invalid (q : RegexQuery) :
    (∀ a, Regex.new q.regex_pattern = some a →
      q.specialized_weight = .ok ⟨q.field, a⟩) ∧
    (Regex.new q.regex_pattern = none →
      q.specialized_weight = .error (.InvalidArgument q.regex_pattern)) := by
  constructor
  · intro a h
    simp [RegexQuery.specialized_weight, h]
  · intro h
    simp [RegexQuery.specialized_weight, h]

/-- Claim C3, witness: both halves at concrete patterns — the valid
"jap[ao]n" and the uncompilable "jap[". -/
theorem C3_witness :
    (RegexQuery.new "jap[ao]n" countryField).specialized_weight =
      .ok ⟨countryField, japAonRegex⟩ ∧
    (RegexQuery.new "jap[" countryField).specialized_weight =
      .error (.InvalidArgument "jap[") :=
  ⟨(C3_specialized_weight_fails_iff_invalid
      (RegexQuery.new "jap[ao]n" countryField)).1 japAonRegex rfl,
   (C3_specialized_weight_fails_iff_invalid
      (RegexQuery.new "jap[" countryField)).2 rfl⟩

/-- Claim C4: for a query whose pattern compiled (its weight exists) and a
segment none of whose dictionary terms is accepted by the automaton,
per-segment evaluation completes without error with an empty scored-document
stream. -/
theorem C4_zero_matches_empty_stream (q : RegexQuery) (w : AutomatonWeight)
    (seg : Segment) (_hw : q.specialized_weight = .ok w)
    (hf : w.field ∈ seg.schemaTextFields)
    (hm : ∀ t ∈ seg.terms, w.automaton.accepts t.1 = false) :
    w.evaluate seg = .ok [] := by
  have hmt : matchedTerms w.automaton seg = [] := by
    simp only [matchedTerms, List.filter_eq_nil_iff]
    intro t ht
    simp [hm t ht]
  simp [AutomatonWeight.evaluate, hf, scoredStream, hmt, mergePostings]

/-- Claim C4, witness: the pattern "jap[A-Z]n" over the japan/korea segment
matches no term and evaluates to the empty stream. -/
theorem C4_witness :
    (AutomatonWeight.mk countryField japAZnRegex).evaluate japanKoreaSegment =
      .ok [] :=
  C4_zero_matches_empty_stream (RegexQuery.new "jap[A-Z]n" countryField)
    ⟨countryField, japAZnRegex⟩ japanKoreaSegment rfl (by decide) (by decide)

/-- Claim C5: every document emitted by a successful per-segment evaluation
carries the same constant match weight (the uniform weight 1, the model of
the 1.0 score), independent of which or how many matched terms the document
contains. -/
theorem C5_uniform_weight (w : AutomatonWeight) (seg : Segment)
    (out : List (Nat × Nat)) (hev : w.evaluate seg = .ok out) :
    ∀ dw ∈ out, dw.2 = uniformWeight := by
  intro dw hdw
  unfold AutomatonWeight.evaluate at hev
  by_cases hf : w.field ∈ seg.schemaTextFields
  · rw [if_pos hf] at hev
    have hout : out = scoredStream w.automaton seg := (Except.ok.inj hev).symm
    rw [hout] at hdw
    unfold scoredStream at hdw
    rcases List.mem_map.mp hdw with ⟨d, _, rfl⟩
    rfl
  · rw [if_neg hf] at hev
    exact Except.noConfusion hev

/-- Claim C5, witness: the document emitted for pattern "jap[ao]n" over the
japan/korea segment carries the uniform weight. -/
theorem C5_witness : ((0 : Nat), (1 : Nat)).2 = uniformWeight :=
  C5_uniform_weight ⟨countryField, japAonRegex⟩ japanKoreaSegment
    [(0, 1)] rfl (0, 1) (by decide)

/-- Claim C6: two queries constructed from equal pattern strings (in
particular, two calls to `specialized_weight` on the same query) compile to
automata that accept the same language. -/
theorem C6_equal_patterns_same_language (q1 q2 : RegexQuery)
    (hp : q1.regex_pattern = q2.regex_pattern) (w1 w2 : AutomatonWeight)
    (h1 : q1.specialized_weight = .ok w1)
    (h2 : q2.specialized_weight = .ok w2) :
    ∀ word, w1.automaton.accepts word = w2.automaton.accepts word := by
  intro word
  unfold RegexQuery.specialized_weight at h1 h2
  rw [hp] at h1
  cases hn : Regex.new q2.regex_pattern with
  | none =>
    rw [hn] at h1
    exact Except.noConfusion h1
  | some a =>
    rw [hn] at h1 h2
    have e1 : w1 = ⟨q1.field, a⟩ := (Except.ok.inj h1).symm
    have e2 : w2 = ⟨q2.field, a⟩ := (Except.ok.inj h2).symm
    rw [e1, e2]

/-- Claim C6, witness: two distinct queries over the pattern "jap[ao]n"
agree on the word "japan". -/
theorem C6_witness :
    (AutomatonWeight.mk ⟨0⟩ japAonRegex).automaton.accepts "japan".toList =
      (AutomatonWeight.mk ⟨1⟩ japAonRegex).automaton.accepts "japan".toList :=
  C6_equal_patterns_same_language (RegexQuery.new "jap[ao]n" ⟨0⟩)
    (RegexQuery.new "jap[ao]n" ⟨1⟩) rfl ⟨⟨0⟩, japAonRegex⟩ ⟨⟨1⟩, japAonRegex⟩
    rfl rfl "japan".toList

/-- Claim C7: the outcome of `weight` is identical across any two calls,
regardless of the searcher argument (which holds every segment and its
dictionary) and of the `scoring_enabled` flag, and equals
`specialized_weight` — pattern compilation is pure and reads no dictionary
or segment state. -/
theorem C7_weight_pure (q : RegexQuery) (s1 s2 : Searcher) (b1 b2 : Bool) :
    q.weight s1 b1 = q.weight s2 b2 ∧ q.weight s1 b1 = q.specialized_weight :=
  ⟨rfl, rfl⟩

/-- Claim C8: evaluating a weight against a segment whose schema does not
index the bound field as text reports a `ConfigurationError`, and that error
is distinct from the `InvalidArgument` pattern-failure kind for every pattern
text. -/
theorem C8_missing_field_config_error (w : AutomatonWeight) (seg : Segment)
    (h : w.field ∉ seg.schemaTextFields) :
    w.evaluate seg = .error (.ConfigurationError "field not indexed as text") ∧
    ∀ p, TantivyError.ConfigurationError "field not indexed as text" ≠
      TantivyError.InvalidArgument p := by
  refine ⟨?_, ?_⟩
  · simp [AutomatonWeight.evaluate, h]
  · intro p hne
    exact TantivyError.noConfusion hne

/-- Claim C8, witness: evaluating a weight bound to the absent field 5
against the japan/korea segment yields the configuration error. -/
theorem C8_witness :
    (AutomatonWeight.mk ⟨5⟩ japAonRegex).evaluate japanKoreaSegment =
      .error (.ConfigurationError "field not indexed as text") :=
  (C8_missing_field_config_error ⟨⟨5⟩, japAonRegex⟩ japanKoreaSegment
    (by decide)).1

/-- Claim C9: a query's pattern string and field are exactly as supplied to
`new`, and the state-passing embeddings of `weight`, `specialized_weight` and
a whole search (any number of per-segment evaluations) return the query
unchanged — the query is never mutated after construction. -/
theorem C9_query_immutable (p : String) (f : Field) (s : Searcher) (b : Bool) :
    (RegexQuery.new p f).regex_pattern = p ∧
    (RegexQuery.new p f).field = f ∧
    ((RegexQuery.new p f).weightS s b).2 = RegexQuery.new p f ∧
    ((RegexQuery.new p f).specializedWeightS).2 = RegexQuery.new p f ∧
    ((RegexQuery.new p f).searchS s).2 = RegexQuery.new p f :=
  ⟨rfl, rfl, rfl, rfl, rfl⟩

/-- Claim C10: `RegexQuery::new` is total — for every pattern string,
including ones that are not valid regular expressions, and every field it
returns the query record holding exactly those two values, performing no
validation of the pattern. -/
theorem C10_new_total (p : String) (f : Field) :
    RegexQuery.new p f = { regex_pattern := p, field := f } := rfl

end Tantivy
